import Mathlib

/-!
Shallow embedding of the electrification-forecast dashboard script
(`kubeflow2-app.py`). The script is a single linear run: parse an uploaded
CSV, lowercase its column names, derive the sorted country list, filter and
sort one country's rows, then render a trend chart, a heat map, a gated
ARIMA(1,1,1) forecast, and a threshold-based recommendation.

The script's only imports are streamlit, pandas, numpy, and statsmodels; it
never imports matplotlib or seaborn, yet uses `plt` (lines 79, 110, 152) and
`sns` (line 111). With no upload the run stops at line 45, before `plt` is
touched. With an upload, the run executes the loader (lines 33-36, 47), the
country list (line 54), the sidebar controls (lines 55-67), and the country
filter/sort (line 72), and then raises an unhandled NameError at
`plt.subplots()` on line 79: everything from the trend chart onwards — the
heat-map pivot (line 104), the length-6 gate (line 135), the ARIMA fit
(line 140), the forecast (lines 143-147), the model summary (line 175), and
the recommendation (lines 182-193) — is dead code. `runApp` records that
abort; the definitions below that embed lines past 79 give the semantics of
that dead code and are marked as such.
-/

namespace Kubeflow2

/-- The three selectable metric columns offered by the sidebar selectbox. -/
inductive Metric where
  | electricity_access
  | rural_access
  | urban_access
deriving DecidableEq, Repr

/-- One row of the loaded dataset: a country name, a year, and the three
numeric access-percentage columns. -/
structure Row where
  country : String
  year : Int
  electricity_access : ℚ
  rural_access : ℚ
  urban_access : ℚ
deriving DecidableEq, Repr

/-- Column lookup `row[access_type]` for the selected metric. -/
def Row.metric (r : Row) : Metric → ℚ
  | .electricity_access => r.electricity_access
  | .rural_access => r.rural_access
  | .urban_access => r.urban_access

/-- A parsed CSV table as the data loader sees it: a header line and data
rows, all still strings (`pd.read_csv` output viewed structurally). -/
structure RawTable where
  headers : List String
  rows : List (List String)
deriving DecidableEq, Repr

/-- Embeds `load_data` (lines 33-36): lowercase every column name, touch
nothing else. -/
def load_data (t : RawTable) : RawTable :=
  { headers := t.headers.map String.toLower, rows := t.rows }

instance rowYearLEDec : DecidableRel (fun a b : Row => a.year ≤ b.year) :=
  fun a b => Int.decLe a.year b.year

instance rowYearLETotal : IsTotal Row (fun a b : Row => a.year ≤ b.year) :=
  ⟨fun a b => Int.le_total a.year b.year⟩

instance rowYearLETrans : IsTrans Row (fun a b : Row => a.year ≤ b.year) :=
  ⟨fun _ _ _ h h2 => Int.le_trans h h2⟩

/-- Embeds `sorted(df["country"].unique())` (line 54): the distinct country
values of the dataset, sorted ascending. -/
def countries (df : List Row) : List String :=
  List.insertionSort (· ≤ ·) (df.map Row.country).dedup

/-- Embeds `df[df["country"] == selected_country].sort_values("year")`
(line 72): the selected country's rows in ascending year order. -/
def country_df (df : List Row) (sel : String) : List Row :=
  List.insertionSort (fun a b => a.year ≤ b.year)
    (df.filter (fun r => r.country == sel))

/-- Embeds `country_df.set_index("year")[access_type]` (line 133): the
year-indexed metric series of the selected country. Line 133 is dead code:
the run aborts at line 79 before reaching it. -/
def series (df : List Row) (sel : String) (m : Metric) : List (Int × ℚ) :=
  (country_df df sel).map (fun r => (r.year, r.metric m))

/-- Embeds one cell of `df.pivot_table(index="country", columns="year",
values=access_type)` (lines 104-108): pandas aggregates duplicate
(country, year) rows with its default mean, and leaves absent pairs empty.
Lines 104-108 are dead code behind the line-79 abort; this gives the
semantics the call would have. -/
def pivotCell (df : List Row) (m : Metric) (c : String) (y : Int) : Option ℚ :=
  let vs := (df.filter (fun r => r.country == c && r.year == y)).map
    (fun r => r.metric m)
  if vs.isEmpty then none else some (vs.sum / vs.length)

/-- Embeds the sorted distinct year labels pandas uses as pivot columns. -/
def pivotYears (df : List Row) : List Int :=
  List.insertionSort (· ≤ ·) (df.map Row.year).dedup

/-- The country-by-year heat-map matrix: row labels, column labels, and the
grid of optional cells. -/
structure Pivot where
  rowLabels : List String
  colLabels : List Int
  cells : List (List (Option ℚ))
deriving DecidableEq, Repr

/-- Embeds `df.pivot_table(index="country", columns="year",
values=access_type)` (lines 104-108) over the ENTIRE loaded dataset. -/
def pivotTable (df : List Row) (m : Metric) : Pivot :=
  { rowLabels := countries df
    colLabels := pivotYears df
    cells := (countries df).map
      (fun c => (pivotYears df).map (fun y => pivotCell df m c y)) }

/-- Embeds `series.index.max()` (lines 145-146): the largest year of a
nonempty index (pandas max; the empty case is never reached past the gate). -/
def indexMax : List Int → Int
  | [] => 0
  | y :: ys => ys.foldl max y

/-- Embeds `range(series.index.max() + 1, series.index.max() + 1 +
forecast_years)` (lines 144-147), dead code behind the line-79 abort. -/
def forecast_year_index (lastYear : Int) (steps : Nat) : List Int :=
  (List.range steps).map (fun i : Nat => lastYear + 1 + (i : Int))

/-- Embeds the Python one-decimal float format `f"{v:.1f}"` used in the
warning banner, on rationals: round to the nearest tenth and print one
digit after the point. -/
def formatOneDecimal (q : ℚ) : String :=
  let n : Int := round (q * 10)
  let sign := if n < 0 then "-" else ""
  sign ++ toString (n.natAbs / 10) ++ "." ++ toString (n.natAbs % 10)

/-- Embeds the success banner of line 191-193. -/
def successMsg (c : String) : String :=
  " " ++ c ++ " is on track to approach universal electricity access."

/-- Embeds the warning banner of lines 186-189, naming the country and the
last forecasted value to one decimal place. -/
def warningMsg (c : String) (v : ℚ) : String :=
  " " ++ c ++ " is projected to remain below universal access (" ++
    formatOneDecimal v ++ "%). Accelerated investment is recommended."

/-- Embeds the recommendation rule of lines 185-193: strictly below 90 warns,
otherwise succeeds. Lines 182-193 are dead code behind the line-79 abort;
no run ever applies this rule. -/
def recMessage (c : String) (v : ℚ) : String :=
  if v < 90 then warningMsg c v else successMsg c

/-- What one top-to-bottom run of the script renders: each section is
recorded by the data it would draw, `none`/`false` when the run halted or
aborted before reaching it. `name_error_abort` is set when the run reaches
`plt.subplots()` on line 79 and dies on the unhandled NameError (matplotlib
is never imported). -/
structure RunOutput where
  no_file_warning : Bool
  name_error_abort : Bool
  trend_chart : Option (List (Int × ℚ))
  heat_map : Option Pivot
  insufficient_data_error : Bool
  arima_fitted : Bool
  forecast_result : Option (List (Int × ℚ))
  model_summary_shown : Bool
  recommendation : Option String
deriving DecidableEq, Repr

/-- Embeds one full run of the script as a function of the optional upload
and the sidebar selections. With no upload the run warns and stops at line
45. With an upload it executes the loader, the country list, the sidebar
controls, and the country filter/sort (lines 47-72), then aborts with the
unhandled NameError at line 79 — so no chart, gate, fit, forecast, summary,
or recommendation is ever produced, whatever the data or selections. -/
def runApp (uploaded : Option (List Row)) (_sel : String) (_m : Metric)
    (_N : Nat) : RunOutput :=
  match uploaded with
  | none =>
      { no_file_warning := true
        name_error_abort := false
        trend_chart := none
        heat_map := none
        insufficient_data_error := false
        arima_fitted := false
        forecast_result := none
        model_summary_shown := false
        recommendation := none }
  | some _ =>
      { no_file_warning := false
        name_error_abort := true
        trend_chart := none
        heat_map := none
        insufficient_data_error := false
        arima_fitted := false
        forecast_result := none
        model_summary_shown := false
        recommendation := none }

/-- A six-year sample country used by the witnesses: rising access values
for one country, mirroring the spec example. -/
def dfKenya : List Row :=
  [⟨"Kenya", 2015, 55, 40, 70⟩, ⟨"Kenya", 2016, 60, 45, 74⟩,
   ⟨"Kenya", 2017, 64, 50, 78⟩, ⟨"Kenya", 2018, 68, 54, 81⟩,
   ⟨"Kenya", 2019, 71, 58, 84⟩, ⟨"Kenya", 2020, 75, 62, 87⟩]

/-- A four-year sample country used by the insufficient-data witness. -/
def dfShort : List Row :=
  [⟨"Chad", 2018, 10, 4, 30⟩, ⟨"Chad", 2019, 11, 5, 31⟩,
   ⟨"Chad", 2020, 12, 6, 32⟩, ⟨"Chad", 2021, 13, 7, 33⟩]

end Kubeflow2

namespace Kubeflow2

/-- C6: with no upload, the run warns and halts immediately at line 45 (in
particular before the line-79 crash point): no table is loaded and no chart
section, model summary, or recommendation is produced. -/
theorem claim_C6_no_file_halts (sel : String) (m : Metric) (N : Nat) :
    runApp none sel m N =
      { no_file_warning := true
        name_error_abort := false
        trend_chart := none
        heat_map := none
        insufficient_data_error := false
        arima_fitted := false
        forecast_result := none
        model_summary_shown := false
        recommendation := none } := rfl

/-- C8: the data loader returns the parsed table with every column name
lowercased and the data rows untouched: no other transformation, validation,
coercion, or schema check. -/
theorem claim_C8_load_data_lowercases_only (t : RawTable) :
    (load_data t).headers = t.headers.map String.toLower ∧
      (load_data t).rows = t.rows :=
  ⟨rfl, rfl⟩

/-- C4: the selectable country list is sorted, has no duplicates, and holds
exactly the values of the dataset's country column: it is the sorted list of
distinct country values. -/
theorem claim_C4_countries_sorted_distinct (df : List Row) :
    List.Sorted (· ≤ ·) (countries df) ∧ (countries df).Nodup ∧
      ∀ c, c ∈ countries df ↔ c ∈ df.map Row.country := by
  refine ⟨List.sorted_insertionSort _ _, ?_, ?_⟩
  · exact (List.perm_insertionSort _ _).nodup_iff.mpr (List.nodup_dedup _)
  · intro c
    rw [countries, (List.perm_insertionSort _ _).mem_iff, List.mem_dedup]

/-- C5 counterexample: at a concrete six-row upload the run crashes at line
79 and the Historical Trend View is never supplied any rows, so the claim
that the run hands the view the filtered, year-sorted rows is false. -/
theorem claim_C5_counterexample :
    (runApp (some dfKenya) "Kenya" Metric.electricity_access 5).trend_chart
        = none ∧
      (runApp (some dfKenya) "Kenya"
        Metric.electricity_access 5).name_error_abort = true :=
  ⟨rfl, rfl⟩

/-- C5 (amended): the per-country table computed at line 72 — the rows the
Historical Trend View would receive — is exactly the dataset rows of the
selected country (a permutation of the filter, whatever the upload order),
arranged in ascending year order; the view itself never receives them,
because the run aborts at line 79 before rendering. -/
theorem claim_C5_country_rows_sorted (df : List Row) (sel : String) :
    (country_df df sel).Perm (df.filter (fun r => r.country == sel)) ∧
      List.Sorted (fun a b => a.year ≤ b.year) (country_df df sel) :=
  ⟨List.perm_insertionSort _ _, List.sorted_insertionSort _ _⟩

/-- C10: whenever the selected country comes from the selectable list (which
is drawn from the dataset itself), the country filter, and hence the trend
view's rows and the forecast series, are non-empty. -/
theorem claim_C10_selected_filter_nonempty (df : List Row) (sel : String)
    (m : Metric) (h : sel ∈ countries df) :
    country_df df sel ≠ [] ∧ series df sel m ≠ [] := by
  have hmem : sel ∈ df.map Row.country := by
    rw [countries, (List.perm_insertionSort _ _).mem_iff, List.mem_dedup] at h
    exact h
  obtain ⟨r, hr, hrc⟩ := List.mem_map.mp hmem
  have hrf : r ∈ df.filter (fun r => r.country == sel) :=
    List.mem_filter.mpr ⟨hr, by simp [hrc]⟩
  have hposf : 0 < (df.filter (fun r => r.country == sel)).length :=
    List.length_pos.mpr (List.ne_nil_of_mem hrf)
  have hlen : (country_df df sel).length =
      (df.filter (fun r => r.country == sel)).length :=
    (List.perm_insertionSort _ _).length_eq
  have hcd : country_df df sel ≠ [] := by
    apply List.length_pos.mp
    rw [hlen]
    exact hposf
  refine ⟨hcd, ?_⟩
  unfold series
  simpa using hcd

/-- C9: when the dataset holds two or more rows with the same
(country, year) pair, the heat-map cell for that pair is the arithmetic mean
of those rows' metric values, not a failure and not a single row's value. -/
theorem claim_C9_pivot_mean_on_duplicates (df : List Row) (m : Metric)
    (c : String) (y : Int)
    (h : 2 ≤ (df.filter (fun r => r.country == c && r.year == y)).length) :
    pivotCell df m c y =
      some ((((df.filter (fun r => r.country == c && r.year == y)).map
          (fun r => r.metric m)).sum) /
        (((df.filter (fun r => r.country == c && r.year == y)).map
          (fun r => r.metric m)).length)) := by
  unfold pivotCell
  have hne : ((df.filter (fun r => r.country == c && r.year == y)).map
      (fun r => r.metric m)).isEmpty = false := by
    rw [List.isEmpty_eq_false_iff_exists_mem]
    obtain ⟨r, hr⟩ :=
      List.exists_mem_of_length_pos (Nat.lt_of_lt_of_le (by omega) h)
    exact ⟨r.metric m, List.mem_map_of_mem _ hr⟩
  simp [hne]

/-- C2 (code bug): at a concrete country with only 4 observed years, the
run never reaches the length-6 gate at line 135: it aborts with the
NameError at line 79 before the trend chart or heat map render, so no
insufficient-data error is ever raised. -/
theorem claim_C2_gate_unreachable :
    (runApp (some dfShort) "Chad"
        Metric.electricity_access 5).name_error_abort = true ∧
      (runApp (some dfShort) "Chad"
        Metric.electricity_access 5).insufficient_data_error = false ∧
      (runApp (some dfShort) "Chad"
        Metric.electricity_access 5).trend_chart = none ∧
      (runApp (some dfShort) "Chad"
        Metric.electricity_access 5).heat_map = none :=
  ⟨rfl, rfl, rfl, rfl⟩

/-- C7 (code bug): at a concrete upload the heat-map pivot at line 104 is
never executed: the run aborts with the NameError at line 79 (and the render
at line 111 would also fail on the unimported `sns`), so no run builds the
country-by-year matrix. -/
theorem claim_C7_no_heatmap :
    (runApp (some dfKenya) "Kenya"
        Metric.electricity_access 5).heat_map = none ∧
      (runApp (some dfKenya) "Kenya"
        Metric.electricity_access 5).name_error_abort = true :=
  ⟨rfl, rfl⟩

/-- C1 (code bug): at a concrete six-year upload with horizon 5, no
forecast result exists: the run aborts with the NameError at line 79, so the
ARIMA fit at line 140 and the year index at lines 143-147 are never
reached. -/
theorem claim_C1_no_forecast_ever :
    (runApp (some dfKenya) "Kenya"
        Metric.electricity_access 5).name_error_abort = true ∧
      (runApp (some dfKenya) "Kenya"
        Metric.electricity_access 5).forecast_result = none ∧
      (runApp (some dfKenya) "Kenya"
        Metric.electricity_access 5).arima_fitted = false :=
  ⟨rfl, rfl, rfl⟩

/-- C3 (code bug): at a concrete six-year upload, no recommendation message
of any kind is emitted: the run aborts with the NameError at line 79, so the
threshold code at lines 182-193 is dead and `recMessage` is never applied. -/
theorem claim_C3_no_recommendation :
    (runApp (some dfKenya) "Kenya"
        Metric.electricity_access 5).recommendation = none ∧
      (runApp (some dfKenya) "Kenya"
        Metric.electricity_access 5).name_error_abort = true ∧
      (runApp (some dfKenya) "Kenya"
        Metric.electricity_access 5).recommendation ≠
        some (recMessage "Kenya" ((823 : ℚ) / 10)) := by
  refine ⟨rfl, rfl, ?_⟩
  intro h
  exact Option.noConfusion h

/-- Witness for C10 at a concrete dataset: Kenya is selectable, so its
filtered table and series are non-empty. -/
theorem claim_C10_witness :
    country_df dfKenya "Kenya" ≠ [] ∧
      series dfKenya "Kenya" Metric.electricity_access ≠ [] :=
  claim_C10_selected_filter_nonempty dfKenya "Kenya"
    Metric.electricity_access (by decide)

/-- Witness for C9 at a concrete dataset with a duplicated (country, year)
pair: the cell is the mean of the two values. -/
theorem claim_C9_witness :
    pivotCell
        [⟨"Kenya", 2015, 50, 40, 60⟩, ⟨"Kenya", 2015, 70, 44, 66⟩]
        Metric.electricity_access "Kenya" 2015 =
      some (((([⟨"Kenya", 2015, 50, 40, 60⟩, ⟨"Kenya", 2015, 70, 44, 66⟩] :
          List Row).filter
            (fun r => r.country == "Kenya" && r.year == 2015)).map
          (fun r => r.metric Metric.electricity_access)).sum /
        ((([⟨"Kenya", 2015, 50, 40, 60⟩, ⟨"Kenya", 2015, 70, 44, 66⟩] :
          List Row).filter
            (fun r => r.country == "Kenya" && r.year == 2015)).map
          (fun r => r.metric Metric.electricity_access)).length) :=
  claim_C9_pivot_mean_on_duplicates
    [⟨"Kenya", 2015, 50, 40, 60⟩, ⟨"Kenya", 2015, 70, 44, 66⟩]
    Metric.electricity_access "Kenya" 2015 (by decide)

end Kubeflow2
